import Mathlib

/-!
Verification of the magic-shop product-creation pipeline.

This file is a shallow embedding of the core of the repository:

* `app/services/image.py`   — `convert_png_to_jpg` (raster converter)
* `app/services/gemini.py`  — `GeminiClient.generate_description`,
  `generate_image_prompt`, `generate_image` (backend adapter)
* `app/services/product.py` — `ProductService._extract_metadata`,
  `create_product_from_description`, `get_all_products`

External capabilities (the Gemini network backend, the PIL raster codec,
the Python stdlib JSON parser, the SQL engine) are modeled as explicit
oracle parameters, mirroring how the repository's own test-suite replaces
them with mocks.  Python `str` operations used by the source
(`strip`, `split('\n')`, `'\n'.join`, `startswith`) are given explicit
models over `List Char`.
-/

/-- Model of the Python exception values raised inside the pipeline.
`geminiAPIError` is `GeminiAPIError` (gemini.py), `imageConversionError` is
`ImageConversionError` (image.py), `productCreationError` is
`ProductCreationError` (product.py), `jsonDecodeError` is
`json.JSONDecodeError`, and the remaining constructors are the Python
builtins raised by `convert_png_to_jpg` and the list indexing in
`generate_image`. -/
inductive PyExc where
  | geminiAPIError (msg : String)
  | imageConversionError (msg : String)
  | productCreationError (msg : String)
  | jsonDecodeError (msg : String)
  | indexError (msg : String)
  | fileNotFoundError (msg : String)
  | valueError (msg : String)
  deriving Repr, DecidableEq

/-- Model of `str(e)` for a modeled exception: the message it carries. -/
def pyStr : PyExc → String
  | .geminiAPIError m => m
  | .imageConversionError m => m
  | .productCreationError m => m
  | .jsonDecodeError m => m
  | .indexError m => m
  | .fileNotFoundError m => m
  | .valueError m => m

/-- The ASCII whitespace set of Python `str.strip()`. -/
def pyIsSpace (c : Char) : Bool :=
  c == ' ' || c == '\t' || c == '\n' || c == '\r' || c == '\x0b' || c == '\x0c'

/-- Python `str.strip()` on the character list of a string. -/
def pyStripData (l : List Char) : List Char :=
  ((l.dropWhile pyIsSpace).reverse.dropWhile pyIsSpace).reverse

/-- Python `str.strip()`. -/
def pyStrip (s : String) : String := String.mk (pyStripData s.data)

/-- Python `s.startswith(pre)`. -/
def pyStartsWith (s pre : String) : Bool := pre.data.isPrefixOf s.data

/-- Parsed JSON values, the result type of the stdlib `json.loads`
capability used by `_extract_metadata`. -/
inductive JVal where
  | jnull
  | jbool (b : Bool)
  | jnum (n : Int)
  | jstr (s : String)
  | jarr (elems : List JVal)
  | jobj (fields : List (String × JVal))

/-- Python dict lookup over the key/value pairs produced by `json.loads`
(for duplicate keys the later binding wins, as in a dict built by the
parser). `none` models `key not in metadata`. -/
def jlookup (md : List (String × JVal)) (k : String) : Option JVal :=
  match md with
  | [] => none
  | kv :: rest =>
    match jlookup rest k with
    | some v => some v
    | none => if kv.1 = k then some kv.2 else none

/-- Lookup `metadata[k]` once `k` is known to be present (`jnull` is a dead
default, used only to totalize the lookup). -/
def mdget (md : List (String × JVal)) (k : String) : JVal :=
  (jlookup md k).getD JVal.jnull

/-- product.py lines 240-246: strip the response, and if the first line
begins with the triple-backtick marker, drop the first and last lines
(`lines[1:-1]`) and rejoin with newlines. -/
def cleanResponse (t : String) : String :=
  if pyStartsWith (pyStrip t) "```" then
    String.mk (List.intercalate ['\n'] ((((pyStrip t).data.splitOn '\n').drop 1).dropLast))
  else pyStrip t

/-- product.py line 253: the required metadata fields, in validation order. -/
def requiredFields : List String := ["name", "category", "tags", "rarity", "price"]

/-- The body of `ProductService._extract_metadata` (product.py lines
231-270), i.e. the `try` block: empty-response check, code-fence cleanup,
JSON parse (`parse` is the stdlib `json.loads` capability: either the
parsed object's key/value pairs or the parser's error message),
required-field validation, tags type check, and tag normalization.
`response` is `response.text` (`none` models a `None`/missing text,
which together with the empty string is falsy in the
`if not response or not response.text` guard). -/
def extract_metadata_body (parse : String → Except String (List (String × JVal)))
    (response : Option String) : Except PyExc (List (String × JVal)) :=
  match response with
  | none => .error (.productCreationError "Empty response from Gemini for metadata extraction")
  | some txt =>
    if txt = "" then
      .error (.productCreationError "Empty response from Gemini for metadata extraction")
    else
      match parse (cleanResponse txt) with
      | .error m => .error (.jsonDecodeError m)
      | .ok metadata =>
        match requiredFields.find? (fun f => (jlookup metadata f).isNone) with
        | some f => .error (.productCreationError ("Missing required field in metadata: " ++ f))
        | none =>
          match jlookup metadata "tags" with
          | some (JVal.jarr tags) =>
            let tags2 := if tags.length < 2 then tags ++ [JVal.jstr "Magical"] else tags
            let tags3 := tags2.take 5
            .ok (metadata.map (fun kv => if kv.1 = "tags" then (kv.1, JVal.jarr tags3) else kv))
          | _ => .error (.productCreationError "Tags must be a list")

/-- The `except` clauses of `_extract_metadata` (product.py lines 272-286):
a `json.JSONDecodeError` and a `GeminiAPIError` get their dedicated
wrappers; every other exception — including the `ProductCreationError`
values raised inside the `try` body itself — is re-wrapped by the generic
`except Exception` clause. -/
def extract_metadata_handlers : PyExc → PyExc
  | .jsonDecodeError m => .productCreationError ("Failed to parse metadata JSON: " ++ m)
  | .geminiAPIError m => .productCreationError ("Gemini API error during metadata extraction: " ++ m)
  | e => .productCreationError ("Failed to extract metadata: " ++ pyStr e)

/-- Embedding of `ProductService._extract_metadata`: the `try` body with its exception
handlers applied on failure. -/
def extract_metadata (parse : String → Except String (List (String × JVal)))
    (response : Option String) : Except PyExc (List (String × JVal)) :=
  match extract_metadata_body parse response with
  | .ok md => .ok md
  | .error e => .error (extract_metadata_handlers e)

/-- Error kinds of `convert_png_to_jpg` (image.py): `notFound` is the
`FileNotFoundError` for a missing source, `invalidArgument` the
`ValueError` for an out-of-range quality, `conversionFailed` the
`ImageConversionError` wrapping any decode/encode failure. -/
inductive ConvErr where
  | notFound
  | invalidArgument
  | conversionFailed
  deriving Repr, DecidableEq

/-- The observable side effects of one `convert_png_to_jpg` call:
whether the source-existence check ran, whether the destination's parent
directory was created, and whether the destination file was written. -/
structure ConvEffects where
  checkedSourceExists : Bool
  createdDir : Bool
  wroteFile : Bool
  deriving Repr, DecidableEq

/-- Embedding of `convert_png_to_jpg` (image.py lines 19-93).  The PIL decode/convert/
encode block is an external codec capability, modeled by the oracle
`decodeOk` (`false` makes `Image.open`/`save` raise, which the generic
handler wraps into `ImageConversionError`).  The source's statement order
is kept: `png_path.exists()` runs first, unconditionally; the quality
range check follows; `jpg_path.parent.mkdir` only happens after both. -/
def convert_png_to_jpg (sourceExists : Bool) (decodeOk : Bool) (quality : Int) :
    Except ConvErr Unit × ConvEffects :=
  let eff0 : ConvEffects := ⟨true, false, false⟩
  if !sourceExists then
    (.error .notFound, eff0)
  else if ¬(1 ≤ quality ∧ quality ≤ 100) then
    (.error .invalidArgument, eff0)
  else
    let eff1 : ConvEffects := ⟨true, true, false⟩
    if !decodeOk then
      (.error .conversionFailed, eff1)
    else
      (.ok (), ⟨true, true, true⟩)

/-- One part of a streamed Gemini chunk, as read by `generate_image`
(gemini.py lines 163-187): `inline_data` may be absent (`none`), and when
present its `data` field may itself be absent or empty — Python's
truthiness test `inline_data and inline_data.data` accepts only a
nonempty byte payload. -/
structure ChunkPart where
  inline_data : Option (Option (List Nat))
  text : Option String

/-- A streamed chunk. `parts = none` models any of
`chunk.candidates is None`, `content is None`, `parts is None`; those
chunks are skipped by the `continue`. -/
structure Chunk where
  parts : Option (List ChunkPart)

/-- Whether `generate_image` would accept this chunk as carrying the
image payload: a first part whose `inline_data.data` is truthy. -/
def chunkHasImage (c : Chunk) : Bool :=
  match c.parts with
  | some (p :: _) =>
    match p.inline_data with
    | some (some (_ :: _)) => true
    | _ => false
  | _ => false

/-- The streaming loop of `generate_image`: first-image-wins.  Returns
the bytes written to the destination on the first image chunk, `none` if
the stream ends with no image, and an `IndexError` if a chunk has a
present but empty `parts` list (the source indexes `parts[0]`
unconditionally once `parts` is not `None`). -/
def consumeStream : List Chunk → Except PyExc (Option (List Nat))
  | [] => .ok none
  | c :: rest =>
    match c.parts with
    | none => consumeStream rest
    | some [] => .error (.indexError "list index out of range")
    | some (p :: _) =>
      match p.inline_data with
      | some (some (b :: bs)) => .ok (some (b :: bs))
      | _ => consumeStream rest

/-- Embedding of `GeminiClient.generate_image` (gemini.py lines 114-196) as a function
of the backend's chunk stream.  The first component is the call's
outcome; the second is the content of the destination file (`none` = no
file was created).  Both the in-loop `IndexError` and the final
`GeminiAPIError("No image data received from Gemini API")` are caught by
the surrounding `except Exception` and re-raised as
`GeminiAPIError("Failed to generate image: ...")`. -/
def generate_image (stream : List Chunk) : Except PyExc Unit × Option (List Nat) :=
  match consumeStream stream with
  | .error e => (.error (.geminiAPIError ("Failed to generate image: " ++ pyStr e)), none)
  | .ok none =>
    (.error (.geminiAPIError
      "Failed to generate image: No image data received from Gemini API"), none)
  | .ok (some content) => (.ok (), some content)

/-- Whether a call outcome is a `GeminiAPIError` (the spec's
`BackendError` kind). -/
def isBackendError : Except PyExc Unit → Bool
  | .error (.geminiAPIError _) => true
  | _ => false

/-- Python `dict.get(k, default)` over the configured system prompts. -/
def dictGet (d : List (String × String)) (k : String) (dflt : String) : String :=
  match d with
  | [] => dflt
  | kv :: rest => if kv.1 = k then kv.2 else dictGet rest k dflt

/-- The full prompt built by `GeminiClient.generate_description`
(gemini.py lines 57-60):
`f"{system_prompt}\n\nProduct idea: {one_line_input}"` with the system
prompt looked up under `description_generation` (default `""`). -/
def generate_description_full_prompt (system_prompts : List (String × String))
    (one_line_input : String) : String :=
  dictGet system_prompts "description_generation" "" ++ "\n\nProduct idea: " ++ one_line_input

/-- The full prompt built by `GeminiClient.generate_image_prompt`
(gemini.py lines 93-96):
`f"{system_prompt}\n\nDescription:\n{description}"` with the system
prompt looked up under `image_prompt_generation` (default `""`). -/
def generate_image_prompt_full_prompt (system_prompts : List (String × String))
    (description : String) : String :=
  dictGet system_prompts "image_prompt_generation" "" ++ "\n\nDescription:\n" ++ description

/-- Modelled from the spec: the prompt-construction contract the spec
claims for both text operations,
`"{system}\n\n{user-context-label}: {user-content}"` — the system prompt,
two newlines, a context label, a colon and a space, then the user
content.  Stated from the spec's words for comparison with the two
prompt builders above. -/
def claimed_prompt_format (system label content : String) : String :=
  system ++ "\n\n" ++ label ++ ": " ++ content

/-- A persisted product row (app/models/product.py).  Metadata-derived
fields keep their parsed JSON values, since the source stores
`metadata['name']` etc. verbatim; `created_at` is an abstract UTC
instant (larger = later). -/
structure ProductRow where
  id : Nat
  name : JVal
  description : String
  image_path : String
  price : JVal
  category : JVal
  tags : JVal
  rarity : JVal
  created_at : Nat

/-- The transactional record store as seen through one SQLAlchemy
session: `committed` rows are durable and visible to other readers,
`pending` rows have been added/flushed inside the open transaction but
not committed, `nextId` is the next autoincrement key. -/
structure DB where
  committed : List ProductRow
  pending : List ProductRow
  nextId : Nat

/-- One pipeline invocation's backend behavior, the oracle inputs the
repository's tests supply through mocks: the outcomes of
`generate_description` and `generate_image_prompt` (gemini.py wraps every
failure of those calls into a `GeminiAPIError`, so an error is just its
message), the raw `response.text` of the metadata `generate_content`
call, the stdlib JSON-parse capability, the image stream consumed by
`generate_image`, and the outcome of the PIL conversion inside
`convert_png_to_jpg`. -/
structure GeminiBehavior where
  descriptionResult : Except String String
  imagePromptResult : Except String String
  metadataResponse : Option String
  parseJson : String → Except String (List (String × JVal))
  imageStream : List Chunk
  conversionResult : Except PyExc Unit

/-- The derived `.jpg` filename `f"{product.id}_{timestamp}.jpg"`
(product.py lines 111-113), with the `YYYYMMDD_HHMMSS` rendering of the
current UTC time abstracted to `toString now`. -/
def jpgFilename (id : Nat) (now : Nat) : String :=
  toString id ++ "_" ++ toString now ++ ".jpg"

/-- The `try` body of `ProductService.create_product_from_description`
(product.py lines 78-136), threading the session state.  Steps in source
order: description generation, image-prompt generation, metadata
extraction, provisional `add`+`flush` (assigning the autoincrement id
without committing), image generation, PNG→JPG conversion, `image_path`
update on the pending row, then `commit` (which also publishes any other
pending rows of the session) and `refresh`.  On an error the state at
the raise point is returned alongside it. -/
def create_body (g : GeminiBehavior) (now : Nat) (db0 : DB) :
    Except PyExc ProductRow × DB :=
  match g.descriptionResult with
  | .error m => (.error (.geminiAPIError m), db0)
  | .ok description =>
  match g.imagePromptResult with
  | .error m => (.error (.geminiAPIError m), db0)
  | .ok _image_prompt =>
  match extract_metadata g.parseJson g.metadataResponse with
  | .error e => (.error e, db0)
  | .ok metadata =>
    let pid := db0.nextId
    let row0 : ProductRow :=
      { id := pid
        name := mdget metadata "name"
        description := description
        image_path := ""
        price := mdget metadata "price"
        category := mdget metadata "category"
        tags := mdget metadata "tags"
        rarity := mdget metadata "rarity"
        created_at := now }
    let db1 : DB := { db0 with pending := db0.pending ++ [row0], nextId := pid + 1 }
    match (generate_image g.imageStream).1 with
    | .error e => (.error e, db1)
    | .ok _ =>
    match g.conversionResult with
    | .error e => (.error e, db1)
    | .ok _ =>
      let webPath := "/images/" ++ jpgFilename pid now
      let newPending := db1.pending.map
        fun r => if r.id = pid then { r with image_path := webPath } else r
      let db2 : DB := { db1 with pending := newPending }
      let db3 : DB := { committed := db2.committed ++ db2.pending, pending := [], nextId := db2.nextId }
      (.ok { row0 with image_path := webPath }, db3)

/-- The `except` clauses of `create_product_from_description` (product.py
lines 138-154): a `GeminiAPIError` is re-raised as
`ProductCreationError("AI generation failed: ...")`, an
`ImageConversionError` as
`ProductCreationError("Image conversion failed: ...")`, and every other
exception — including the `ProductCreationError` values coming out of
`_extract_metadata` — as
`ProductCreationError("Product creation failed: ...")`. -/
def classifyCreationFailure : PyExc → PyExc
  | .geminiAPIError m => .productCreationError ("AI generation failed: " ++ m)
  | .imageConversionError m => .productCreationError ("Image conversion failed: " ++ m)
  | e => .productCreationError ("Product creation failed: " ++ pyStr e)

/-- Embedding of `ProductService.create_product_from_description`: the `try` body,
with `self.db.rollback()` (clearing the pending rows) performed in every
`except` clause before the classified error is re-raised. -/
def create_product_from_description (g : GeminiBehavior) (now : Nat) (db0 : DB) :
    Except PyExc ProductRow × DB :=
  match create_body g now db0 with
  | (.ok p, db1) => (.ok p, db1)
  | (.error e, db1) => (.error (classifyCreationFailure e), { db1 with pending := [] })

/-- The `ORDER BY created_at DESC` sort key relation. -/
def createdDesc (a b : ProductRow) : Prop := b.created_at ≤ a.created_at

instance : DecidableRel createdDesc := fun a b => Nat.decLe b.created_at a.created_at

instance : IsTotal ProductRow createdDesc :=
  ⟨fun a b => Nat.le_total b.created_at a.created_at⟩

instance : IsTrans ProductRow createdDesc :=
  ⟨fun _ _ _ hab hbc => Nat.le_trans hbc hab⟩

/-- Embedding of `ProductService.get_all_products` (product.py lines 156-170):
`SELECT * FROM products ORDER BY created_at DESC` through the session —
the session's own flushed-but-uncommitted rows are visible to it, so the
query ranges over `committed ++ pending`.  The SQL engine is modeled by
a stable sort on the descending `created_at` key. -/
def get_all_products (db : DB) : List ProductRow :=
  List.insertionSort createdDesc (db.committed ++ db.pending)

lemma modifyHead_append_of_ne_nil {α : Type} (f : α → α) (l1 l2 : List α) (h : l1 ≠ []) :
    (l1 ++ l2).modifyHead f = l1.modifyHead f ++ l2 := by
  cases l1 with
  | nil => exact absurd rfl h
  | cons a t => rfl

/-- When a list of the form `[...as, sep, ...ys]` is split, and no element
of `ys` matches, the final piece is exactly `ys`. -/
lemma splitOnP_last {α : Type} (p : α → Bool) (as : List α) (sep : α) (hsep : p sep)
    (ys : List α) (hy : ∀ y ∈ ys, ¬p y) :
    (as ++ sep :: ys).splitOnP p = as.splitOnP p ++ [ys] := by
  induction as with
  | nil =>
    simp only [List.nil_append, List.splitOnP_cons, hsep, if_true, List.splitOnP_nil]
    rw [List.splitOnP_eq_single p ys hy]
    rfl
  | cons a t ih =>
    simp only [List.cons_append, List.splitOnP_cons]
    by_cases ha : p a
    · simp [ha, ih]
    · have ha2 : p a = false := by simpa using ha
      simp only [ha2, Bool.false_eq_true, if_false, ih]
      rw [modifyHead_append_of_ne_nil _ _ _ (List.splitOnP_ne_nil p t)]

/-- Python `str.strip` is the identity on a string whose first and last
characters are not whitespace. -/
lemma pyStripData_id_of_ends (a b : Char) (m : List Char)
    (ha : pyIsSpace a = false) (hb : pyIsSpace b = false) :
    pyStripData (a :: (m ++ [b])) = a :: (m ++ [b]) := by
  unfold pyStripData
  rw [List.dropWhile_cons, ha]
  simp only [Bool.false_eq_true, if_false]
  rw [List.reverse_cons, List.reverse_append, List.reverse_singleton, List.singleton_append,
    List.cons_append, List.dropWhile_cons, hb]
  simp only [Bool.false_eq_true, if_false]
  rw [List.reverse_cons, List.reverse_append, List.reverse_reverse, List.reverse_singleton,
    List.singleton_append, List.cons_append]

/-- The character list of a fenced wrapper `"```json\n" + t + "\n```"`,
exposed with the first fence line and separators explicit. -/
lemma wrap_data (t : String) :
    ("```json\n" ++ t ++ "\n```").data =
      ("```json" : String).data ++ '\n' :: (t.data ++ '\n' :: ("```" : String).data) := by
  rw [String.data_append, String.data_append]
  rw [show ("```json\n" : String).data = ("```json" : String).data ++ ['\n'] from rfl,
    show ("\n```" : String).data = '\n' :: ("```" : String).data from rfl]
  simp [List.append_assoc]

/-- The same character list, exposed with the first and last character
(both backticks) explicit. -/
lemma wrap_data_ends (t : String) :
    ("```json\n" ++ t ++ "\n```").data =
      '`' :: ((("``json\n" : String).data ++ t.data ++ ("\n``" : String).data) ++ ['`']) := by
  rw [String.data_append, String.data_append]
  rw [show ("```json\n" : String).data = '`' :: ("``json\n" : String).data from rfl,
    show ("\n```" : String).data = ("\n``" : String).data ++ ['`'] from rfl]
  simp [List.append_assoc]

/-- Stripping a fenced wrapper changes nothing: both ends are backticks. -/
lemma pyStrip_wrapped (t : String) :
    pyStrip ("```json\n" ++ t ++ "\n```") = "```json\n" ++ t ++ "\n```" := by
  apply String.ext
  show pyStripData ("```json\n" ++ t ++ "\n```").data = _
  rw [wrap_data_ends, pyStripData_id_of_ends '`' '`' _ (by decide) (by decide)]

/-- The fence-cleanup of `_extract_metadata` inverts the fenced-code-block
wrapper exactly: wrapping any text in a fence line pair and cleaning
returns the original text. -/
lemma cleanResponse_wrapped (t : String) :
    cleanResponse ("```json\n" ++ t ++ "\n```") = t := by
  unfold cleanResponse pyStartsWith
  rw [pyStrip_wrapped]
  have hpre : (("```" : String).data).isPrefixOf (("```json\n" ++ t ++ "\n```").data) = true := by
    rw [ List.isPrefixOf_iff_prefix, wrap_data]
    exact ( List.IsPrefix.trans ⟨("json" : String).data, rfl⟩ ( List.prefix_append _ _))
  rw [hpre]
  simp only [if_true]
  rw [wrap_data]
  show String.mk (List.intercalate ['\n']
    (((List.splitOnP (fun x => x == '\n') _).drop 1).dropLast)) = t
  rw [List.splitOnP_first (fun x => x == '\n') (("```json" : String).data) (by decide) '\n'
    (by decide) _]
  rw [splitOnP_last (fun x => x == '\n') t.data '\n' (by decide) (("```" : String).data)
    (by decide)]
  rw [List.drop_one, List.tail_cons, List.dropLast_concat]
  rw [show t.data.splitOnP (fun x => x == '\n') = t.data.splitOn '\n' from rfl,
    List.intercalate_splitOn]

/-- On an already-stripped text that does not open with a fence marker,
the cleanup is the identity. -/
lemma cleanResponse_of_plain (t : String) (hstrip : pyStrip t = t)
    (hfence : pyStartsWith t "```" = false) :
    cleanResponse t = t := by
  unfold cleanResponse
  rw [hstrip, hfence]
  simp

/-- C4 counterexample: with a missing source file and quality 0 — outside
[1,100] — the converter fails with `NotFound`, not `InvalidArgument`, and
even when the quality failure does fire (source present) the
source-existence check has already run before it. -/
theorem c4_counterexample :
    (convert_png_to_jpg false true 0).1 = .error .notFound ∧
    (convert_png_to_jpg false true 0).1 ≠ .error .invalidArgument ∧
    (convert_png_to_jpg true true 0).1 = .error .invalidArgument ∧
    (convert_png_to_jpg true true 0).2.checkedSourceExists = true := by
  refine ⟨rfl, ?_, rfl, rfl⟩
  intro h
  simp [convert_png_to_jpg] at h

/-- C4 (amended): when the source file exists, any quality outside
[1,100] fails with `InvalidArgument` before the destination directory is
created and before anything is written; only the source-existence check
(which the source performs first, unconditionally) precedes it.  When the
source is missing, `NotFound` wins regardless of the quality value. -/
theorem c4_quality_gate (decodeOk : Bool) (q : Int) (h : q < 1 ∨ 100 < q) :
    (convert_png_to_jpg true decodeOk q).1 = .error .invalidArgument ∧
    (convert_png_to_jpg true decodeOk q).2.createdDir = false ∧
    (convert_png_to_jpg true decodeOk q).2.wroteFile = false := by
  have hq : ¬(1 ≤ q ∧ q ≤ 100) := by omega
  simp [convert_png_to_jpg, hq]

theorem c4_quality_gate_witness :
    ((101 : Int) < 1 ∨ (100 : Int) < 101) ∧
    ((convert_png_to_jpg true true 101).1 = .error .invalidArgument ∧
      (convert_png_to_jpg true true 101).2.createdDir = false ∧
      (convert_png_to_jpg true true 101).2.wroteFile = false) :=
  ⟨Or.inr (by decide), c4_quality_gate true 101 (Or.inr (by decide))⟩

lemma consumeStream_of_no_image (s : List Chunk) (h : ∀ c ∈ s, chunkHasImage c = false) :
    consumeStream s = .ok none ∨
      consumeStream s = .error (.indexError "list index out of range") := by
  induction s with
  | nil => exact Or.inl rfl
  | cons c rest ih =>
    have hc := h c (List.mem_cons_self c rest)
    have ihr := ih (fun x hx => h x (List.mem_cons_of_mem c hx))
    rcases hp : c.parts with _ | pl
    · simp only [consumeStream, hp]
      exact ihr
    · rcases pl with _ | ⟨p, ps⟩
      · simp only [consumeStream, hp]
        exact Or.inr trivial
      · have hc2 : (match p.inline_data with
            | some (some (_ :: _)) => true
            | _ => false) = false := by
          unfold chunkHasImage at hc
          rw [hp] at hc
          exact hc
        rcases hd : p.inline_data with _ | od
        · simp only [consumeStream, hp, hd]
          exact ihr
        · rcases od with _ | bl
          · simp only [consumeStream, hp, hd]
            exact ihr
          · rcases bl with _ | ⟨b, bs⟩
            · simp only [consumeStream, hp, hd]
              exact ihr
            · rw [hd] at hc2
              simp at hc2

/-- C6: if every chunk of the backend image stream lacks inline binary
image data (including the zero-chunk stream), `generate_image` fails with
a `GeminiAPIError` (the spec's `BackendError`) and no destination file is
created. -/
theorem c6_empty_stream (stream : List Chunk)
    (h : ∀ c ∈ stream, chunkHasImage c = false) :
    isBackendError (generate_image stream).1 = true ∧
    (generate_image stream).2 = none := by
  rcases consumeStream_of_no_image stream h with hk | hk <;>
    simp [generate_image, hk, isBackendError, pyStr]

theorem c6_empty_stream_witness :
    (∀ c ∈ ([⟨some [⟨some none, some "a text chunk"⟩]⟩, ⟨none⟩] : List Chunk),
      chunkHasImage c = false) ∧
    (isBackendError (generate_image
        [⟨some [⟨some none, some "a text chunk"⟩]⟩, ⟨none⟩]).1 = true ∧
      (generate_image [⟨some [⟨some none, some "a text chunk"⟩]⟩, ⟨none⟩]).2 = none) :=
  ⟨by decide, c6_empty_stream _ (by decide)⟩

/-- C10: whenever the stripped response text opens with the
triple-backtick marker, the cleanup removes exactly the first and the
last line, unconditionally on the last line's content: a response of the
form `first\n...mid...\nlast` whose first line opens a fence cleans to
exactly the middle lines — the final content line is lost even though it
is not a closing fence. -/
theorem c10_fence_strip_unconditional (first mid lastLine : List Char)
    (hfence : (("```" : String).data).isPrefixOf first = true)
    (hfirst : '\n' ∉ first) (hlast : '\n' ∉ lastLine)
    (hstrip : pyStripData (first ++ '\n' :: (mid ++ '\n' :: lastLine)) =
      first ++ '\n' :: (mid ++ '\n' :: lastLine)) :
    cleanResponse (String.mk (first ++ '\n' :: (mid ++ '\n' :: lastLine))) = String.mk mid := by
  unfold cleanResponse pyStartsWith pyStrip
  rw [show (String.mk (first ++ '\n' :: (mid ++ '\n' :: lastLine))).data =
    first ++ '\n' :: (mid ++ '\n' :: lastLine) from rfl]
  rw [hstrip]
  have hpre : (("```" : String).data).isPrefixOf (first ++ '\n' :: (mid ++ '\n' :: lastLine)) =
      true := by
    rw [ List.isPrefixOf_iff_prefix] at hfence ⊢
    exact hfence.trans ( List.prefix_append _ _)
  rw [hpre]
  simp only [if_true]
  show String.mk (List.intercalate ['\n']
    (((List.splitOnP (fun x => x == '\n') _).drop 1).dropLast)) = String.mk mid
  have hfirstb : ∀ x ∈ first, ¬((fun x => x == '\n') x = true) := by
    intro x hx hx2
    exact hfirst (eq_of_beq hx2 ▸ hx)
  have hlastb : ∀ y ∈ lastLine, ¬((fun x => x == '\n') y = true) := by
    intro y hy hy2
    exact hlast (eq_of_beq hy2 ▸ hy)
  rw [List.splitOnP_first (fun x => x == '\n') first hfirstb '\n' (by decide) _]
  rw [splitOnP_last (fun x => x == '\n') mid '\n' (by decide) lastLine hlastb]
  rw [List.drop_one, List.tail_cons, List.dropLast_concat]
  rw [show mid.splitOnP (fun x => x == '\n') = mid.splitOn '\n' from rfl,
    List.intercalate_splitOn]

theorem c10_fence_strip_witness :
    ((("```" : String).data).isPrefixOf ("```json" : String).data = true ∧
      '\n' ∉ ("```json" : String).data ∧
      '\n' ∉ ("final content line" : String).data ∧
      pyStripData (("```json" : String).data ++ '\n' ::
        (("\x7b\"name\": \"X\"\x7d" : String).data ++ '\n' :: ("final content line" : String).data)) =
        ("```json" : String).data ++ '\n' ::
        (("\x7b\"name\": \"X\"\x7d" : String).data ++ '\n' :: ("final content line" : String).data)) ∧
    cleanResponse (String.mk (("```json" : String).data ++ '\n' ::
        (("\x7b\"name\": \"X\"\x7d" : String).data ++ '\n' :: ("final content line" : String).data))) =
      String.mk ("\x7b\"name\": \"X\"\x7d" : String).data :=
  ⟨⟨by decide, by decide, by decide, by decide⟩,
    c10_fence_strip_unconditional _ _ _ (by decide) (by decide) (by decide) (by decide)⟩

/-- C7: extracting metadata from a backend response wrapped in a fenced
code block (fence line before, fence line after) gives exactly the same
result as extracting from the unfenced text, for any already-trimmed
nonempty text that does not itself open with a fence marker — in
particular for the text of any JSON object. -/
theorem c7_fenced_equals_unfenced (parse : String → Except String (List (String × JVal)))
    (t : String) (hstrip : pyStrip t = t) (hfence : pyStartsWith t "```" = false)
    (hne : t ≠ "") :
    extract_metadata parse (some ("```json\n" ++ t ++ "\n```")) =
      extract_metadata parse (some t) := by
  have hwne : ("```json\n" ++ t ++ "\n```") ≠ "" := by
    intro h
    have h2 := congrArg String.data h
    rw [wrap_data_ends] at h2
    exact absurd h2 (by simp)
  unfold extract_metadata extract_metadata_body
  dsimp only
  rw [if_neg hwne, if_neg hne, cleanResponse_wrapped t, cleanResponse_of_plain t hstrip hfence]

/-- C5 counterexample: the full prompt built by `generate_image_prompt`
for system prompt `"S"` and description `"D"` is `"S\n\nDescription:\nD"`
— a colon followed by a newline — which matches the claimed
`"{system}\n\n{label}: {content}"` shape (colon + space) for no choice of
context label at all. -/
theorem c5_counterexample :
    ¬ ∃ label : String,
      generate_image_prompt_full_prompt [("image_prompt_generation", "S")] "D" =
        claimed_prompt_format "S" label "D" := by
  rintro ⟨label, h⟩
  have h2 : ("S\n\nDescription:\nD" : String) = claimed_prompt_format "S" label "D" := by
    rw [← h]; rfl
  have hd := congrArg (fun s : String => s.data.reverse) h2
  simp only [claimed_prompt_format, String.data_append, List.reverse_append] at hd
  rw [show ("S\n\nDescription:\nD" : String).data.reverse =
      ['D', '\n', ':', 'n', 'o', 'i', 't', 'p', 'i', 'r', 'c', 's', 'e', 'D', '\n', '\n', 'S']
      from rfl,
    show ("D" : String).data.reverse = ['D'] from rfl,
    show (": " : String).data.reverse = [' ', ':'] from rfl] at hd
  simp only [List.cons_append, List.nil_append] at hd
  injection hd with h3 h4
  injection h4 with h5 h6
  exact absurd h5 (by decide)

/-- C5 (amended): description generation does follow the claimed
`"{system}\n\n{label}: {content}"` contract with context label
`"Product idea"`; image-prompt generation instead joins its label and
content with a colon and a **newline**:
`"{system}\n\nDescription:\n{content}"`.  No other transformation is
applied in either case. -/
theorem c5_prompt_construction (sps : List (String × String)) (x d : String) :
    generate_description_full_prompt sps x =
      claimed_prompt_format (dictGet sps "description_generation" "") "Product idea" x ∧
    generate_image_prompt_full_prompt sps d =
      dictGet sps "image_prompt_generation" "" ++ "\n\nDescription:\n" ++ d := by
  refine ⟨?_, rfl⟩
  unfold generate_description_full_prompt claimed_prompt_format
  apply String.ext
  simp [String.data_append, List.append_assoc]

lemma jlookup_map_set_none (md : List (String × JVal)) (k : String) (v : JVal)
    (h : jlookup md k = none) :
    jlookup (md.map fun kv => if kv.1 = k then (kv.1, v) else kv) k = none := by
  induction md with
  | nil => rfl
  | cons kv rest ih =>
    simp only [List.map_cons, jlookup] at h ⊢
    cases hr : jlookup rest k with
    | some w =>
      rw [hr] at h
      exact absurd h (by simp)
    | none =>
      rw [hr] at h
      have hk : ¬(kv.1 = k) := by
        intro he
        rw [if_pos he] at h
        exact absurd h (by simp)
      rw [ih hr]
      simp [hk]

lemma jlookup_map_set_some (md : List (String × JVal)) (k : String) (v : JVal)
    (h : (jlookup md k).isSome) :
    jlookup (md.map fun kv => if kv.1 = k then (kv.1, v) else kv) k = some v := by
  induction md with
  | nil => simp [jlookup] at h
  | cons kv rest ih =>
    simp only [List.map_cons, jlookup]
    cases hr : jlookup rest k with
    | some w =>
      rw [ih (by rw [hr]; rfl)]
    | none =>
      rw [jlookup_map_set_none rest k v hr]
      simp only [jlookup, hr] at h
      by_cases hk : kv.1 = k
      · simp only [hk, if_true]
      · rw [if_neg hk] at h
        simp at h

/-- Any run of the orchestrator body either succeeds, or fails having
never touched the committed rows (the body only commits in its final
step). -/
lemma create_body_error_state (g : GeminiBehavior) (now : Nat) (db0 : DB) :
    (∃ p, (create_body g now db0).1 = .ok p) ∨
    ((create_body g now db0).2.committed = db0.committed ∧
      ∃ e, (create_body g now db0).1 = .error e) := by
  unfold create_body
  cases hd : g.descriptionResult with
  | error m => exact Or.inr ⟨rfl, _, rfl⟩
  | ok desc =>
    cases hi : g.imagePromptResult with
    | error m => exact Or.inr ⟨rfl, _, rfl⟩
    | ok ip =>
      cases hm : extract_metadata g.parseJson g.metadataResponse with
      | error e => exact Or.inr ⟨rfl, _, rfl⟩
      | ok md =>
        cases hgi : (generate_image g.imageStream).1 with
        | error e => exact Or.inr ⟨rfl, _, rfl⟩
        | ok u =>
          cases hc : g.conversionResult with
          | error e => exact Or.inr ⟨rfl, _, rfl⟩
          | ok u2 => exact Or.inl ⟨_, rfl⟩

/-- C1: whenever product creation fails — at any step — the rollback in
the orchestrator's exception handlers leaves the committed rows exactly
as they were, the transaction's pending rows are discarded, and
`get_all_products` returns the same rows after the failed call as before
it; no partial row is ever visible. -/
theorem c1_failure_atomicity (g : GeminiBehavior) (now : Nat) (db0 : DB) (e : PyExc)
    (hpend : db0.pending = [])
    (herr : (create_product_from_description g now db0).1 = .error e) :
    (create_product_from_description g now db0).2.committed = db0.committed ∧
    (create_product_from_description g now db0).2.pending = [] ∧
    get_all_products (create_product_from_description g now db0).2 =
      get_all_products db0 := by
  rcases create_body_error_state g now db0 with ⟨p, hok⟩ | ⟨hcom, e2, herr2⟩
  · exfalso
    unfold create_product_from_description at herr
    rcases hcb : create_body g now db0 with ⟨res, db1⟩
    rw [hcb] at hok herr
    have hres : res = Except.ok p := hok
    subst hres
    simp at herr
  · unfold create_product_from_description at herr ⊢
    rcases hcb : create_body g now db0 with ⟨res, db1⟩
    rw [hcb] at herr2 hcom herr
    have hres : res = Except.error e2 := herr2
    subst hres
    have hcom2 : db1.committed = db0.committed := hcom
    refine ⟨hcom2, rfl, ?_⟩
    simp [get_all_products, hcom2, hpend]

theorem c1_failure_atomicity_witness :
    ((⟨[⟨1, .jstr "Old", "d", "/images/old.jpg", .jstr "1 Gold", .jstr "Weapons",
        .jarr [.jstr "a", .jstr "b"], .jstr "Common", 3⟩], [], 2⟩ : DB).pending = [] ∧
      (create_product_from_description
        { descriptionResult := .error "API quota exceeded"
          imagePromptResult := .ok "unused"
          metadataResponse := none
          parseJson := fun _ => .error "unused"
          imageStream := []
          conversionResult := .ok () } 9
        ⟨[⟨1, .jstr "Old", "d", "/images/old.jpg", .jstr "1 Gold", .jstr "Weapons",
          .jarr [.jstr "a", .jstr "b"], .jstr "Common", 3⟩], [], 2⟩).1 =
        .error (.productCreationError "AI generation failed: API quota exceeded")) ∧
    ((create_product_from_description
        { descriptionResult := .error "API quota exceeded"
          imagePromptResult := .ok "unused"
          metadataResponse := none
          parseJson := fun _ => .error "unused"
          imageStream := []
          conversionResult := .ok () } 9
        ⟨[⟨1, .jstr "Old", "d", "/images/old.jpg", .jstr "1 Gold", .jstr "Weapons",
          .jarr [.jstr "a", .jstr "b"], .jstr "Common", 3⟩], [], 2⟩).2.committed =
      [⟨1, .jstr "Old", "d", "/images/old.jpg", .jstr "1 Gold", .jstr "Weapons",
        .jarr [.jstr "a", .jstr "b"], .jstr "Common", 3⟩] ∧
      (create_product_from_description
        { descriptionResult := .error "API quota exceeded"
          imagePromptResult := .ok "unused"
          metadataResponse := none
          parseJson := fun _ => .error "unused"
          imageStream := []
          conversionResult := .ok () } 9
        ⟨[⟨1, .jstr "Old", "d", "/images/old.jpg", .jstr "1 Gold", .jstr "Weapons",
          .jarr [.jstr "a", .jstr "b"], .jstr "Common", 3⟩], [], 2⟩).2.pending = [] ∧
      get_all_products (create_product_from_description
        { descriptionResult := .error "API quota exceeded"
          imagePromptResult := .ok "unused"
          metadataResponse := none
          parseJson := fun _ => .error "unused"
          imageStream := []
          conversionResult := .ok () } 9
        ⟨[⟨1, .jstr "Old", "d", "/images/old.jpg", .jstr "1 Gold", .jstr "Weapons",
          .jarr [.jstr "a", .jstr "b"], .jstr "Common", 3⟩], [], 2⟩).2 =
      get_all_products ⟨[⟨1, .jstr "Old", "d", "/images/old.jpg", .jstr "1 Gold",
        .jstr "Weapons", .jarr [.jstr "a", .jstr "b"], .jstr "Common", 3⟩], [], 2⟩) :=
  ⟨⟨rfl, rfl⟩, c1_failure_atomicity _ 9 _ _ rfl rfl⟩

/-- Whether an exception is the orchestrator's `AIGenerationFailed`
umbrella: the `ProductCreationError` produced by the `except
GeminiAPIError` clause, recognizable by its `"AI generation failed: "`
message prefix (the classification used for description and image-prompt
generation failures). -/
def isAIGenerationFailedKind (e : PyExc) : Bool :=
  match e with
  | .productCreationError m => pyStartsWith m "AI generation failed: "
  | _ => false

/-- C3 counterexample: a metadata-extraction failure (empty backend
response) during step 3, with steps 1 and 2 succeeding, surfaces as
`"Product creation failed: ..."` — the generic `UnclassifiedFailure`
umbrella — and not under the `AIGenerationFailed` classification used for
description/image-prompt failures, because `_extract_metadata` raises
`ProductCreationError`, which only the orchestrator's generic
`except Exception` clause catches. -/
theorem c3_counterexample :
    (create_product_from_description
      { descriptionResult := .ok "a fine description"
        imagePromptResult := .ok "an image prompt"
        metadataResponse := none
        parseJson := fun _ => .error "unused"
        imageStream := []
        conversionResult := .ok () } 0 ⟨[], [], 1⟩).1 =
      .error (.productCreationError
        "Product creation failed: Failed to extract metadata: Empty response from Gemini for metadata extraction") ∧
    isAIGenerationFailedKind (.productCreationError
      "Product creation failed: Failed to extract metadata: Empty response from Gemini for metadata extraction") = false := by
  exact ⟨rfl, by decide⟩

/-- C3 (amended): every metadata-extraction failure during step 3 is
rolled back and re-raised, but under the `UnclassifiedFailure` umbrella
(message `"Product creation failed: ..."`), not the `AIGenerationFailed`
umbrella (`"AI generation failed: ..."`) used for description and
image-prompt generation failures: the extractor's errors arrive as
`ProductCreationError` and fall through to the orchestrator's generic
handler. -/
theorem c3_extraction_failure_classification (g : GeminiBehavior) (now : Nat) (db0 : DB)
    (d ip m : String)
    (h1 : g.descriptionResult = .ok d) (h2 : g.imagePromptResult = .ok ip)
    (h3 : extract_metadata g.parseJson g.metadataResponse = .error (.productCreationError m)) :
    (create_product_from_description g now db0).1 =
      .error (.productCreationError ("Product creation failed: " ++ m)) ∧
    (create_product_from_description g now db0).2.pending = [] ∧
    (create_product_from_description g now db0).2.committed = db0.committed := by
  unfold create_product_from_description create_body
  rw [h1, h2, h3]
  exact ⟨rfl, rfl, rfl⟩

/-- A concrete behavior whose metadata response is not parseable JSON,
with every other pipeline step succeeding. -/
def unparseableMetadataBehavior : GeminiBehavior where
  descriptionResult := .ok "a fine description"
  imagePromptResult := .ok "an image prompt"
  metadataResponse := some "not json at all"
  parseJson := fun _ => .error "Expecting value: line 1 column 1 (char 0)"
  imageStream := []
  conversionResult := .ok ()

theorem c3_extraction_failure_witness :
    (unparseableMetadataBehavior.descriptionResult = .ok "a fine description" ∧
      unparseableMetadataBehavior.imagePromptResult = .ok "an image prompt" ∧
      extract_metadata unparseableMetadataBehavior.parseJson
          unparseableMetadataBehavior.metadataResponse =
        .error (.productCreationError
          "Failed to parse metadata JSON: Expecting value: line 1 column 1 (char 0)")) ∧
    ((create_product_from_description unparseableMetadataBehavior 4 ⟨[], [], 1⟩).1 =
      .error (.productCreationError
        ("Product creation failed: " ++
          "Failed to parse metadata JSON: Expecting value: line 1 column 1 (char 0)")) ∧
      (create_product_from_description unparseableMetadataBehavior 4 ⟨[], [], 1⟩).2.pending =
        [] ∧
      (create_product_from_description unparseableMetadataBehavior 4 ⟨[], [], 1⟩).2.committed =
        (⟨[], [], 1⟩ : DB).committed) :=
  ⟨⟨rfl, rfl, rfl⟩,
    c3_extraction_failure_classification unparseableMetadataBehavior 4 ⟨[], [], 1⟩
      "a fine description" "an image prompt"
      "Failed to parse metadata JSON: Expecting value: line 1 column 1 (char 0)" rfl rfl rfl⟩

/-- The number of stored tags of a row, when the stored value is a JSON
array (it always is for rows created by the pipeline). -/
def rowTagsCount (r : ProductRow) : Option Nat :=
  match r.tags with
  | .jarr l => some l.length
  | _ => none

/-- C2: the code violates the 2-to-5-tags invariant its own comment
(`"Ensure we have at least 2 tags and at most 5"`, product.py line 262)
and the model documentation claim: when the extracted metadata has zero
tags, the single appended `"Magical"` fallback leaves exactly one tag,
and the pipeline commits a product row whose tags list has length 1,
outside [2,5]. -/
theorem c2_zero_tags_commits_one_tag :
    (create_product_from_description
      { descriptionResult := .ok "A simple potion"
        imagePromptResult := .ok "potion image"
        metadataResponse := some "\x7b\"name\": \"Simple Potion\"\x7d"
        parseJson := fun _ => .ok [("name", .jstr "Simple Potion"),
          ("category", .jstr "Potions"), ("tags", .jarr []),
          ("rarity", .jstr "Common"), ("price", .jstr "5 Gold")]
        imageStream := [⟨some [⟨some (some [137, 80, 78, 71]), none⟩]⟩]
        conversionResult := .ok () } 7 ⟨[], [], 1⟩).2.committed =
      [{ id := 1
         name := .jstr "Simple Potion"
         description := "A simple potion"
         image_path := "/images/1_7.jpg"
         price := .jstr "5 Gold"
         category := .jstr "Potions"
         tags := JVal.jarr [JVal.jstr "Magical"]
         rarity := .jstr "Common"
         created_at := 7 }] ∧
    ((create_product_from_description
      { descriptionResult := .ok "A simple potion"
        imagePromptResult := .ok "potion image"
        metadataResponse := some "\x7b\"name\": \"Simple Potion\"\x7d"
        parseJson := fun _ => .ok [("name", .jstr "Simple Potion"),
          ("category", .jstr "Potions"), ("tags", .jarr []),
          ("rarity", .jstr "Common"), ("price", .jstr "5 Gold")]
        imageStream := [⟨some [⟨some (some [137, 80, 78, 71]), none⟩]⟩]
        conversionResult := .ok () } 7 ⟨[], [], 1⟩).2.committed).map rowTagsCount =
      [some 1] := by
  exact ⟨rfl, rfl⟩

/-- C8: whenever extraction parses metadata whose tags list has more
than 5 elements and every pipeline step succeeds, creation succeeds and
the stored (and returned) product's tags are exactly the first 5
elements of the original list, in the original order. -/
theorem c8_tags_truncated_to_first_five (g : GeminiBehavior) (now : Nat) (db0 : DB)
    (txt desc ip : String) (fields : List (String × JVal)) (l : List JVal)
    (hd : g.descriptionResult = .ok desc) (hi : g.imagePromptResult = .ok ip)
    (hresp : g.metadataResponse = some txt) (htxt : ¬(txt = ""))
    (hparse : g.parseJson (cleanResponse txt) = .ok fields)
    (hvalid : requiredFields.find? (fun f => (jlookup fields f).isNone) = none)
    (htags : jlookup fields "tags" = some (JVal.jarr l))
    (hlen : 5 < l.length)
    (hgi : (generate_image g.imageStream).1 = .ok ()) (hc : g.conversionResult = .ok ()) :
    ∃ p, (create_product_from_description g now db0).1 = .ok p ∧
      p.tags = JVal.jarr (l.take 5) ∧
      p ∈ (create_product_from_description g now db0).2.committed := by
  have h2 : ¬(l.length < 2) := by omega
  have hmd : extract_metadata g.parseJson g.metadataResponse =
      .ok (fields.map fun kv => if kv.1 = "tags" then (kv.1, JVal.jarr (l.take 5)) else kv) := by
    simp only [extract_metadata, extract_metadata_body, hresp, if_neg htxt, hparse, hvalid,
      htags, if_neg h2]
  have htagsome : (jlookup fields "tags").isSome := by rw [htags]; rfl
  have hlook := jlookup_map_set_some fields "tags" (JVal.jarr (l.take 5)) htagsome
  unfold create_product_from_description create_body
  rw [hd, hi, hmd, hgi, hc]
  refine ⟨_, rfl, ?_, ?_⟩
  · dsimp only
    unfold mdget
    rw [hlook]
    rfl
  · dsimp only
    simp only [List.mem_append, List.mem_map]
    right
    refine ⟨_, Or.inr (List.mem_singleton_self _), ?_⟩
    simp

/-- A concrete behavior whose extracted metadata carries six tags, every
pipeline step succeeding. -/
def sixTagBehavior : GeminiBehavior where
  descriptionResult := .ok "a six-tag artifact"
  imagePromptResult := .ok "artifact image"
  metadataResponse := some "\x7b\"name\": \"Hexa\"\x7d"
  parseJson := fun _ => .ok [("name", .jstr "Hexa"), ("category", .jstr "Artifacts"),
    ("tags", .jarr [.jstr "t1", .jstr "t2", .jstr "t3", .jstr "t4", .jstr "t5", .jstr "t6"]),
    ("rarity", .jstr "Rare"), ("price", .jstr "9 Gold")]
  imageStream := [⟨some [⟨some (some [137, 80]), none⟩]⟩]
  conversionResult := .ok ()

theorem c8_tags_truncated_witness :
    (sixTagBehavior.descriptionResult = .ok "a six-tag artifact" ∧
      sixTagBehavior.imagePromptResult = .ok "artifact image" ∧
      sixTagBehavior.metadataResponse = some "\x7b\"name\": \"Hexa\"\x7d" ∧
      ¬(("\x7b\"name\": \"Hexa\"\x7d" : String) = "") ∧
      sixTagBehavior.parseJson (cleanResponse "\x7b\"name\": \"Hexa\"\x7d") =
        .ok [("name", .jstr "Hexa"), ("category", .jstr "Artifacts"),
          ("tags", .jarr [.jstr "t1", .jstr "t2", .jstr "t3", .jstr "t4", .jstr "t5",
            .jstr "t6"]),
          ("rarity", .jstr "Rare"), ("price", .jstr "9 Gold")] ∧
      requiredFields.find? (fun f => (jlookup [("name", JVal.jstr "Hexa"),
          ("category", JVal.jstr "Artifacts"),
          ("tags", JVal.jarr [JVal.jstr "t1", JVal.jstr "t2", JVal.jstr "t3", JVal.jstr "t4",
            JVal.jstr "t5", JVal.jstr "t6"]),
          ("rarity", JVal.jstr "Rare"), ("price", JVal.jstr "9 Gold")] f).isNone) = none ∧
      jlookup [("name", JVal.jstr "Hexa"), ("category", JVal.jstr "Artifacts"),
          ("tags", JVal.jarr [JVal.jstr "t1", JVal.jstr "t2", JVal.jstr "t3", JVal.jstr "t4",
            JVal.jstr "t5", JVal.jstr "t6"]),
          ("rarity", JVal.jstr "Rare"), ("price", JVal.jstr "9 Gold")] "tags" =
        some (JVal.jarr [JVal.jstr "t1", JVal.jstr "t2", JVal.jstr "t3", JVal.jstr "t4",
          JVal.jstr "t5", JVal.jstr "t6"]) ∧
      5 < ([JVal.jstr "t1", JVal.jstr "t2", JVal.jstr "t3", JVal.jstr "t4", JVal.jstr "t5",
        JVal.jstr "t6"] : List JVal).length ∧
      (generate_image sixTagBehavior.imageStream).1 = .ok () ∧
      sixTagBehavior.conversionResult = .ok ()) ∧
    (∃ p, (create_product_from_description sixTagBehavior 2 ⟨[], [], 1⟩).1 = .ok p ∧
      p.tags = JVal.jarr (([JVal.jstr "t1", JVal.jstr "t2", JVal.jstr "t3", JVal.jstr "t4",
        JVal.jstr "t5", JVal.jstr "t6"] : List JVal).take 5) ∧
      p ∈ (create_product_from_description sixTagBehavior 2 ⟨[], [], 1⟩).2.committed) :=
  ⟨⟨rfl, rfl, rfl, by decide, rfl, rfl, rfl, by decide, rfl, rfl⟩,
    c8_tags_truncated_to_first_five sixTagBehavior 2 ⟨[], [], 1⟩
      "\x7b\"name\": \"Hexa\"\x7d" "a six-tag artifact" "artifact image" _ _
      rfl rfl rfl (by decide) rfl rfl rfl (by decide) rfl rfl⟩

/-- C9: with no open write transaction, `get_all_products` returns a
permutation of exactly the committed rows; an empty store yields the
empty list (the query path cannot fail in the model since the SQL
capability is total); and when all committed creation times are
distinct the returned order is strictly descending in `created_at`
(newest first). -/
theorem c9_list_all_ordering (db : DB) (hpend : db.pending = [])
    (hdist : db.committed.Pairwise (fun a b => a.created_at ≠ b.created_at)) :
    (get_all_products db).Perm db.committed ∧
    (db.committed = [] → get_all_products db = []) ∧
    (get_all_products db).Pairwise (fun a b => b.created_at < a.created_at) := by
  have hperm : (get_all_products db).Perm db.committed := by
    unfold get_all_products
    rw [hpend, List.append_nil]
    exact List.perm_insertionSort _ _
  refine ⟨hperm, ?_, ?_⟩
  · intro h
    unfold get_all_products
    rw [hpend, List.append_nil, h]
    rfl
  · have hs : (get_all_products db).Pairwise createdDesc := by
      unfold get_all_products
      exact List.sorted_insertionSort _ _
    have hne : (get_all_products db).Pairwise (fun a b => a.created_at ≠ b.created_at) :=
      (hperm.pairwise_iff (fun h => Ne.symm h)).mpr hdist
    exact (hs.and hne).imp (fun h => lt_of_le_of_ne h.1 (Ne.symm h.2))

theorem c9_list_all_ordering_witness :
    ((⟨[⟨1, .jstr "Old", "first", "/images/1.jpg", .jstr "1 Gold", .jstr "Weapons",
        .jarr [.jstr "a", .jstr "b"], .jstr "Common", 1⟩,
       ⟨2, .jstr "New", "second", "/images/2.jpg", .jstr "2 Gold", .jstr "Potions",
        .jarr [.jstr "c", .jstr "d"], .jstr "Rare", 2⟩], [], 3⟩ : DB).pending = [] ∧
      (⟨[⟨1, .jstr "Old", "first", "/images/1.jpg", .jstr "1 Gold", .jstr "Weapons",
        .jarr [.jstr "a", .jstr "b"], .jstr "Common", 1⟩,
       ⟨2, .jstr "New", "second", "/images/2.jpg", .jstr "2 Gold", .jstr "Potions",
        .jarr [.jstr "c", .jstr "d"], .jstr "Rare", 2⟩], [], 3⟩ : DB).committed.Pairwise
          (fun a b => a.created_at ≠ b.created_at)) ∧
    ((get_all_products ⟨[⟨1, .jstr "Old", "first", "/images/1.jpg", .jstr "1 Gold",
        .jstr "Weapons", .jarr [.jstr "a", .jstr "b"], .jstr "Common", 1⟩,
       ⟨2, .jstr "New", "second", "/images/2.jpg", .jstr "2 Gold", .jstr "Potions",
        .jarr [.jstr "c", .jstr "d"], .jstr "Rare", 2⟩], [], 3⟩).Perm
        [⟨1, .jstr "Old", "first", "/images/1.jpg", .jstr "1 Gold", .jstr "Weapons",
          .jarr [.jstr "a", .jstr "b"], .jstr "Common", 1⟩,
         ⟨2, .jstr "New", "second", "/images/2.jpg", .jstr "2 Gold", .jstr "Potions",
          .jarr [.jstr "c", .jstr "d"], .jstr "Rare", 2⟩] ∧
      (([⟨1, .jstr "Old", "first", "/images/1.jpg", .jstr "1 Gold", .jstr "Weapons",
          .jarr [.jstr "a", .jstr "b"], .jstr "Common", 1⟩,
         ⟨2, .jstr "New", "second", "/images/2.jpg", .jstr "2 Gold", .jstr "Potions",
          .jarr [.jstr "c", .jstr "d"], .jstr "Rare", 2⟩] : List ProductRow) = [] →
        get_all_products ⟨[⟨1, .jstr "Old", "first", "/images/1.jpg", .jstr "1 Gold",
          .jstr "Weapons", .jarr [.jstr "a", .jstr "b"], .jstr "Common", 1⟩,
         ⟨2, .jstr "New", "second", "/images/2.jpg", .jstr "2 Gold", .jstr "Potions",
          .jarr [.jstr "c", .jstr "d"], .jstr "Rare", 2⟩], [], 3⟩ = []) ∧
      (get_all_products ⟨[⟨1, .jstr "Old", "first", "/images/1.jpg", .jstr "1 Gold",
        .jstr "Weapons", .jarr [.jstr "a", .jstr "b"], .jstr "Common", 1⟩,
       ⟨2, .jstr "New", "second", "/images/2.jpg", .jstr "2 Gold", .jstr "Potions",
        .jarr [.jstr "c", .jstr "d"], .jstr "Rare", 2⟩], [], 3⟩).Pairwise
          (fun a b => b.created_at < a.created_at)) :=
  ⟨⟨rfl, by decide⟩, c9_list_all_ordering _ rfl (by decide)⟩

theorem c7_fenced_equals_unfenced_witness :
    (pyStrip "\x7b\"name\": \"X\"\x7d" = "\x7b\"name\": \"X\"\x7d" ∧
      pyStartsWith "\x7b\"name\": \"X\"\x7d" "```" = false ∧
      ¬(("\x7b\"name\": \"X\"\x7d" : String) = "")) ∧
    extract_metadata (fun s => .ok [("echo", JVal.jstr s)])
        (some ("```json\n" ++ "\x7b\"name\": \"X\"\x7d" ++ "\n```")) =
      extract_metadata (fun s => .ok [("echo", JVal.jstr s)]) (some "\x7b\"name\": \"X\"\x7d") :=
  ⟨⟨by decide, by decide, by decide⟩,
    c7_fenced_equals_unfenced (fun s => .ok [("echo", JVal.jstr s)]) "\x7b\"name\": \"X\"\x7d"
      (by decide) (by decide) (by decide)⟩
